import Mathlib

/-!
Verification of the TritonPilot topside link layer.

Shallow embedding of the Python source of the TritonPilot repository:
  * `schema/pilot_common.py` — the pilot command-frame wire schema,
  * `input/controller.py` — deadzone shaping of gamepad axes,
  * `input/pilot_service.py` — the pilot publisher loop (sequence numbers,
    button edges, depth-hold / max-gain mode state),
  * `telemetry/sensor_service.py` — the sensor subscriber loop (staleness
    reconnect, malformed-message and callback-error handling),
  * `video/rov_streams.py` — the video control RPC client,
  * `video/gst_receiver.py` — the raw-frame receiver freshness gate,
  * `gui/main_window.py` — the link-health status model with hysteresis.

Python floats are modelled as rationals (`ℚ`); all the concrete constants
involved are far from any binary-rounding boundary, so comparisons agree
with the Python float semantics.  Python machine ints don't wrap, so `ℕ` /
`ℤ` model them directly.
-/

namespace TritonPilot

/-! ### schema/pilot_common.py -/

/-- Values storable in `PilotFrame.modes` (`Dict[str, Any]` on the wire;
the publisher only ever stores a bool (`depth_hold`) or a float
(`max_gain`)). -/
inductive ModeVal where
  | b (v : Bool)
  | num (q : ℚ)
deriving DecidableEq, Repr

/-- `PilotAxes` dataclass (pilot_common.py lines 14-21). -/
structure PilotAxes where
  lx : ℚ := 0
  ly : ℚ := 0
  rx : ℚ := 0
  ry : ℚ := 0
  lt : ℚ := 0
  rt : ℚ := 0
deriving DecidableEq, Repr

/-- `PilotButtons` dataclass (pilot_common.py lines 24-35); field order is
the dataclass declaration order, which `fields(PilotButtons)` preserves. -/
structure PilotButtons where
  a : Bool := false
  b : Bool := false
  x : Bool := false
  y : Bool := false
  lb : Bool := false
  rb : Bool := false
  win : Bool := false
  menu : Bool := false
  lstick : Bool := false
  rstick : Bool := false
deriving DecidableEq, Repr

/-- `PILOT_SCHEMA_VERSION = 1` (pilot_common.py line 8). -/
def PILOT_SCHEMA_VERSION : ℤ := 1

/-- `PilotFrame` dataclass (pilot_common.py lines 38-54).  `edges` and
`modes` are string-keyed dicts, modelled as association lists in insertion
order. -/
structure PilotFrame where
  schema : ℤ := PILOT_SCHEMA_VERSION
  seq : ℤ := 0
  ts : ℚ := 0
  axes : PilotAxes := {}
  buttons : PilotButtons := {}
  dpad : ℤ × ℤ := (0, 0)
  edges : List (String × String) := []
  modes : List (String × ModeVal) := []
deriving DecidableEq, Repr

/-- The flat JSON wire object produced by `PilotFrame.to_dict`
(pilot_common.py lines 56-67): the frame's fields plus the extra
`"type": "pilot"` tag; `dpad` is serialized as a list. -/
structure WireFrame where
  schema : ℤ
  seq : ℤ
  ts : ℚ
  axes : PilotAxes
  buttons : PilotButtons
  dpad : List ℤ
  edges : List (String × String)
  modes : List (String × ModeVal)
  typeTag : String
deriving DecidableEq, Repr

/-- `PilotFrame.to_dict` (pilot_common.py lines 56-67). -/
def PilotFrame.toDict (f : PilotFrame) : WireFrame :=
  { schema := f.schema
    seq := f.seq
    ts := f.ts
    axes := f.axes
    buttons := f.buttons
    dpad := [f.dpad.1, f.dpad.2]
    edges := f.edges
    modes := f.modes
    typeTag := "pilot" }

/-- `PilotFrame.from_dict` (pilot_common.py lines 69-80).  Reads only the
named keys (the `type` tag is never looked at); `tuple(d.get("dpad", (0,0)))`
restricted to the claim's domain of 2-tuples of ints. -/
def PilotFrame.fromDict (w : WireFrame) : PilotFrame :=
  { schema := w.schema
    seq := w.seq
    ts := w.ts
    axes := w.axes
    buttons := w.buttons
    dpad := match w.dpad with
      | [x, y] => (x, y)
      | _ => (0, 0)
    edges := w.edges
    modes := w.modes }

/-! ### input/controller.py — deadzone and axis shaping -/

/-- `GamepadSource._dz` (controller.py lines 328-329):
`return 0.0 if abs(v) < self.deadzone else v`. -/
def GamepadSource.dzShape (deadzone v : ℚ) : ℚ :=
  if |v| < deadzone then 0 else v

/-- `GamepadSource._clamp01` (controller.py lines 359-365). -/
def GamepadSource.clamp01 (v : ℚ) : ℚ :=
  if v < 0 then 0 else if v > 1 then 1 else v

/-- `GamepadSource._normalize_trigger` (controller.py lines 367-388),
as a function of the trigger's rest value and raw reading. -/
def GamepadSource.normalizeTrigger (rest raw : ℚ) : ℚ :=
  if rest < -(1/2) then GamepadSource.clamp01 ((raw + 1) * (1/2))
  else if rest > 1/2 then GamepadSource.clamp01 ((1 - raw) * (1/2))
  else GamepadSource.clamp01 raw

/-- Raw (unshaped) SDL axis readings for the six mapped axes, plus the
d-pad hat value — the inputs `read_once` consumes after axis mapping. -/
structure RawSticks where
  lx : ℚ
  ly : ℚ
  rx : ℚ
  ry : ℚ
  lt : ℚ
  rt : ℚ
  dpad : ℤ × ℤ
deriving DecidableEq, Repr

/-- The axis part of `GamepadSource.read_once` (controller.py lines
409-430): deadzone on the four stick axes (with optional inversion of the
vertical axes), trigger normalization on lt/rt, hat passthrough for the
d-pad. -/
def GamepadSource.readOnceAxes (deadzone : ℚ) (invertLy invertRy : Bool)
    (restLt restRt : ℚ) (raw : RawSticks) : PilotAxes × (ℤ × ℤ) :=
  ({ lx := GamepadSource.dzShape deadzone raw.lx
     ly := GamepadSource.dzShape deadzone (if invertLy then -raw.ly else raw.ly)
     rx := GamepadSource.dzShape deadzone raw.rx
     ry := GamepadSource.dzShape deadzone (if invertRy then -raw.ry else raw.ry)
     lt := GamepadSource.normalizeTrigger restLt raw.lt
     rt := GamepadSource.normalizeTrigger restRt raw.rt },
   raw.dpad)

/-! ### gui/main_window.py — link-health status with hysteresis -/

/-- The operator-facing link states (the Python code uses the strings
"NO DATA" / "OK" / "WARN" / "LOST"). -/
inductive LinkState where
  | noData
  | ok
  | warn
  | lost
deriving DecidableEq, Repr

/-- `MainWindow._update_link_status` (main_window.py lines 439-489), as a
pure function of the smoothed heartbeat-period estimate `_hb_period_ema_s`,
the previous displayed state `_link_state_last` and the current activity
age; returns the new displayed state.  Thresholds: `ok_th = max(0.9,
1.35*hb_period)`, `warn_th = max(2.5, 3.25*hb_period)`, hysteresis margin
`0.20*hb_period`. -/
def updateLinkStatus (hbPeriodEma : Option ℚ) (prev : LinkState)
    (age : Option ℚ) : LinkState :=
  let hbPeriod : ℚ := match hbPeriodEma with
    | none => 1
    | some p => max (1/5) (min 5 p)
  let okTh := max (9/10) ((27/20) * hbPeriod)
  let warnTh := max (5/2) ((13/4) * hbPeriod)
  let margin := (1/5) * hbPeriod
  match age with
  | none => .noData
  | some a =>
    let nominal : LinkState :=
      if a < okTh then .ok else if a < warnTh then .warn else .lost
    match prev with
    | .ok => if a < okTh + margin then .ok else nominal
    | .warn =>
      if a < okTh + margin then .ok
      else if a < warnTh + margin then .warn
      else nominal
    | .lost =>
      if a < warnTh - margin then (if okTh ≤ a then .warn else .ok)
      else nominal
    | .noData => nominal

/-- Iterate `_update_link_status` over a sequence of ages (one call per
sample, `_link_state_last` carried between calls), collecting the
displayed state after each call. -/
def linkStatusTrace (hbPeriodEma : Option ℚ) :
    LinkState → List ℚ → List LinkState
  | _, [] => []
  | prev, a :: rest =>
    let s := updateLinkStatus hbPeriodEma prev (some a)
    s :: linkStatusTrace hbPeriodEma s rest

/-! ### telemetry/sensor_service.py — subscriber loop -/

/-- Configuration of `SensorSubscriberService` (sensor_service.py lines
27-43). -/
structure SensorConfig where
  staleReconnectS : ℚ
  initialReconnectS : ℚ
deriving Repr

/-- One event obtained by the drain loop's `recv_string(NOBLOCK)`
(sensor_service.py lines 149-185).  `msg parsed cbRaises`: a received
string, where `parsed = none` models a `json.loads` failure and
`cbRaises` models the registered `on_message` callback raising on it
(message payloads are opaque to the loop and modelled as `ℕ` ids).
`recvError` models `recv` raising `zmq.ZMQError`. -/
inductive RecvEvent where
  | msg (parsed : Option ℕ) (cbRaises : Bool)
  | recvError
deriving DecidableEq, Repr

/-- The payload a `msg` event dispatches, if it parses. -/
def RecvEvent.parsedOf : RecvEvent → Option ℕ
  | .msg p _ => p
  | .recvError => none

/-- Whether an event is a socket-level receive error. -/
def RecvEvent.isRecvErr : RecvEvent → Bool
  | .msg _ _ => false
  | .recvError => true

/-- One iteration of `poller.poll`: the wall-clock time of the tick, and
the backlog of events drained when the socket polled readable (an empty
batch models "socket not in events"). -/
structure PollTick where
  now : ℚ
  batch : List RecvEvent
deriving Repr

/-- State of the `_run` loop (sensor_service.py lines 111-146):
`saw_any`, `last_rx`, `start_ts`, plus two observers — the number of
`_reset_sock` calls (socket close + recreate) and the list of payloads
handed to `on_message`, in order. -/
structure SensorState where
  sawAny : Bool
  lastRx : ℚ
  startTs : ℚ
  resets : ℕ
  dispatched : List ℕ
deriving DecidableEq, Repr

/-- Loop state at the top of `_run` (lines 116-118): `start_ts =
time.time()`, `last_rx = 0.0`, `saw_any = False`. -/
def sensorInit (t0 : ℚ) : SensorState :=
  { sawAny := false, lastRx := 0, startTs := t0, resets := 0, dispatched := [] }

/-- The drain loop (sensor_service.py lines 149-185): `recv` until
`zmq.Again`; a `ZMQError` resets the socket and breaks out of the batch; a
`json.loads` failure skips just that message (`continue`); a parsed
message sets `saw_any` / `last_rx` and is handed to `on_message`, whose
exceptions are swallowed (`except Exception: pass`). -/
def sensorDrain (now : ℚ) : SensorState → List RecvEvent → SensorState
  | s, [] => s
  | s, .recvError :: _ => { s with resets := s.resets + 1 }
  | s, .msg none _ :: rest => sensorDrain now s rest
  | s, .msg (some m) _ :: rest =>
    sensorDrain now
      { s with sawAny := true, lastRx := now, dispatched := s.dispatched ++ [m] }
      rest

/-- One iteration of the `while not self._stop.is_set()` loop
(sensor_service.py lines 120-201).  An empty poll runs the staleness
logic of lines 123-146: if messages have been seen and `now - last_rx >
stale_reconnect_s` the socket is reset (note: `last_rx` is *not*
advanced); if none have ever been seen and `now - start_ts >
initial_reconnect_s` the socket is reset and `start_ts` is rearmed to
`now`.  A non-empty poll drains the backlog. -/
def sensorStep (cfg : SensorConfig) (s : SensorState) (t : PollTick) :
    SensorState :=
  match t.batch with
  | [] =>
    if s.sawAny then
      if t.now - s.lastRx > cfg.staleReconnectS then
        { s with resets := s.resets + 1 }
      else s
    else
      if t.now - s.startTs > cfg.initialReconnectS then
        { s with startTs := t.now, resets := s.resets + 1 }
      else s
  | _ => sensorDrain t.now s t.batch

/-- Run the receive loop over a finite schedule of poll ticks (the stop
event is modelled as the end of the schedule: nothing else exits the
loop — every exception site inside the body is wrapped in a handler, which
is what makes this a total function on the whole schedule). -/
def sensorRun (cfg : SensorConfig) : SensorState → List PollTick → SensorState
  | s, [] => s
  | s, t :: rest => sensorRun cfg (sensorStep cfg s t) rest

/-! ### video/rov_streams.py — video control RPC client -/

/-- A decoded JSON reply from the video control peer:
`{ok: bool, error?: string, data?: ...}` (reply data is opaque to the
client and modelled as a `String`). -/
structure Reply where
  ok : Bool
  error : Option String
  data : Option String
deriving DecidableEq, Repr

/-- What the transport delivers for one request/reply exchange: either the
peer replies, or it never does (peer dead / half-open). -/
inductive Exchange where
  | reply (r : Reply)
  | silent
deriving DecidableEq, Repr

/-- Outcome of one `_call` as observed by the caller. -/
inductive CallOutcome where
  | ok (data : Option String)
  /-- the single untyped `RuntimeError(f"ROV error: {...}")` of line 14 -/
  | runtimeError (msg : String)
  /-- `recv` never returns: blocking receive with no `RCVTIMEO` set -/
  | blocksForever
deriving DecidableEq, Repr

/-- Socket options set on the REQ socket by `ROVStreams.__init__`
(rov_streams.py lines 5-8): the socket is created and connected with *no*
`setsockopt` call, so neither `zmq.RCVTIMEO` nor `zmq.SNDTIMEO` is ever
configured (both default to infinite). -/
def rovStreamsRcvTimeoutMs : Option ℕ := none

/-- See `rovStreamsRcvTimeoutMs`: no send timeout is configured either. -/
def rovStreamsSndTimeoutMs : Option ℕ := none

/-- ZMQ blocking-receive semantics: with `RCVTIMEO` unset the call blocks
until a message arrives (forever if none does); with a timeout set it
returns `EAGAIN` after the timeout. -/
def zmqRecvBlocks (rcvTimeoutMs : Option ℕ) : Bool := rcvTimeoutMs.isNone

/-- Python `str(e).lower()` containment helpers for
`"already exists" in str(e).lower()` (rov_streams.py line 26). -/
def charsMatchAt : List Char → List Char → Bool
  | [], _ => true
  | _ :: _, [] => false
  | p :: ps, c :: cs => p == c && charsMatchAt ps cs

/-- Whether `pat` occurs as a contiguous substring of `s`. -/
def charsHaveSub (pat : List Char) : List Char → Bool
  | [] => charsMatchAt pat []
  | c :: cs => charsMatchAt pat (c :: cs) || charsHaveSub pat cs

/-- `"already exists" in msg.lower()`. -/
def mentionsAlreadyExists (msg : String) : Bool :=
  charsHaveSub "already exists".toList (msg.toList.map Char.toLower)

/-- The error message `_call` raises for an `ok: false` reply
(rov_streams.py line 14): `f"ROV error: {reply.get('error')}"`, where a
missing `error` key prints as `None`. -/
def rovErrorMsg (e : Option String) : String :=
  "ROV error: " ++ (match e with | some s => s | none => "None")

/-- `ROVStreams._call` (rov_streams.py lines 10-15), paired with the REQ
socket generation (how many times the socket has been created): `send_json`
then a blocking `recv_json` — with no timeout configured a silent peer
blocks the call forever; an `ok: false` reply raises the untyped
`RuntimeError`; the socket is never closed or recreated on any path, so
the generation is returned unchanged. -/
def rovCall (sockGen : ℕ) (x : Exchange) : CallOutcome × ℕ :=
  match x with
  | .silent =>
    if zmqRecvBlocks rovStreamsRcvTimeoutMs then (.blocksForever, sockGen)
    else (.runtimeError "zmq.Again", sockGen)
  | .reply r =>
    if r.ok then (.ok r.data, sockGen)
    else (.runtimeError (rovErrorMsg r.error), sockGen)

/-- Requests `start_stream` issues through `_call`, in order. -/
inductive RpcReq where
  | startReq
  | stopReq (name : String)
deriving DecidableEq, Repr

/-- `ROVStreams.start_stream` (rov_streams.py lines 20-31), against a peer
that answers the i-th `_call` of this invocation with `peer i`.  Returns
the requests issued (in order) and the outcome: the first `_call` is tried;
on a `RuntimeError` whose message mentions "already exists" the client
stops the stream (if a name was given) and retries the start exactly once,
exceptions from the stop or the retry propagating; any other
`RuntimeError` is re-raised unchanged. -/
def startStream (name : Option String) (peer : ℕ → Reply) :
    List RpcReq × CallOutcome :=
  match rovCall 0 (.reply (peer 0)) with
  | (.ok d, _) => ([.startReq], .ok d)
  | (.runtimeError msg, _) =>
    if mentionsAlreadyExists msg then
      match name with
      | some n =>
        match rovCall 0 (.reply (peer 1)) with
        | (.ok _, _) =>
          ([.startReq, .stopReq n, .startReq], (rovCall 0 (.reply (peer 2))).1)
        | (outcome, _) => ([.startReq, .stopReq n], outcome)
      | none => ([.startReq, .startReq], (rovCall 0 (.reply (peer 1))).1)
    else ([.startReq], .runtimeError msg)
  | (.blocksForever, _) => ([.startReq], .blocksForever)

/-! ### video/gst_receiver.py — raw-frame receiver freshness gate -/

/-- A decoded pixel: the three channel bytes in the order the pipeline
emits them (BGR). -/
def Pixel : Type := ℕ × ℕ × ℕ

instance : DecidableEq Pixel := by
  unfold Pixel
  infer_instance

/-- The raw-buffer state of `ReceiverProcess` guarded by
`_raw_buffer_lock` (gst_receiver.py lines 170-179): the single-slot latest
frame, its sequence number, the last sequence delivered to the caller, and
the arrival timestamp. -/
structure RxState where
  latestFrame : Option (List Pixel)
  latestSeq : ℕ
  lastDeliveredSeq : ℕ
  latestFrameTs : ℚ
deriving DecidableEq

/-- The buffer state `start` resets to (gst_receiver.py lines 193-197),
which is also the constructor's initial state (lines 170-179). -/
def rxInit : RxState :=
  { latestFrame := none, latestSeq := 0, lastDeliveredSeq := 0,
    latestFrameTs := 0 }

/-- One iteration of `_raw_reader_loop` (gst_receiver.py lines 305-313)
that read a complete frame: store it in the single slot and bump the
sequence number. -/
def rawReaderStore (now : ℚ) (frame : List Pixel) (s : RxState) : RxState :=
  { latestFrame := some frame, latestSeq := s.latestSeq + 1,
    lastDeliveredSeq := s.lastDeliveredSeq, latestFrameTs := now }

/-- The per-pixel channel permutation `read_frame` applies lazily
(gst_receiver.py lines 338-367): `arr[:, :, ::-1]` for RGB and the
explicit index lists for the other orders; BGR is the no-copy fast path. -/
def applyChannelOrder (order : String) (px : Pixel) : Pixel :=
  let (c0, c1, c2) := px
  if order = "RGB" then (c2, c1, c0)
  else if order = "BRG" then (c0, c2, c1)
  else if order = "RBG" then (c2, c0, c1)
  else if order = "GBR" then (c1, c0, c2)
  else if order = "GRB" then (c1, c2, c0)
  else px

/-- `ReceiverProcess.read_frame` in raw mode (gst_receiver.py lines
315-367): snapshot the buffer under the lock; if nothing was ever received
or the sequence number equals the last delivered one, return `None`;
otherwise mark the sequence delivered and return the frame with the
configured channel order applied. -/
def readFrame (order : String) (s : RxState) :
    Option (List Pixel) × RxState :=
  match s.latestFrame with
  | none => (none, s)
  | some frame =>
    if s.latestSeq = s.lastDeliveredSeq then (none, s)
    else
      (some (if order = "BGR" then frame
             else frame.map (applyChannelOrder order)),
       { s with lastDeliveredSeq := s.latestSeq })

/-! ### input/pilot_service.py — pilot publisher loop -/

/-- A mapped controller snapshot (`ControllerSnapshot` from
input/controller.py) as `_run_loop` consumes it. -/
structure Snapshot where
  lx : ℚ := 0
  ly : ℚ := 0
  rx : ℚ := 0
  ry : ℚ := 0
  lt : ℚ := 0
  rt : ℚ := 0
  a : Bool := false
  b : Bool := false
  x : Bool := false
  y : Bool := false
  lb : Bool := false
  rb : Bool := false
  win : Bool := false
  menu : Bool := false
  lstick : Bool := false
  rstick : Bool := false
  dpad : ℤ × ℤ := (0, 0)
deriving DecidableEq, Repr

/-- `PilotPublisherService._buttons_to_dict` (pilot_service.py lines
120-122): the buttons as name/value pairs in dataclass field order. -/
def buttonsToDict (bs : PilotButtons) : List (String × Bool) :=
  [("a", bs.a), ("b", bs.b), ("x", bs.x), ("y", bs.y), ("lb", bs.lb),
   ("rb", bs.rb), ("win", bs.win), ("menu", bs.menu),
   ("lstick", bs.lstick), ("rstick", bs.rstick)]

/-- `PilotPublisherService._compute_edges` (pilot_service.py lines
124-137): `{}` on the first tick (`prev is None`); otherwise, per button,
`"down"` on a rising edge and `"up"` on a falling edge. -/
def computeEdges (prev : Option PilotButtons) (cur : PilotButtons) :
    List (String × String) :=
  match prev with
  | none => []
  | some p =>
    ((buttonsToDict p).zip (buttonsToDict cur)).filterMap fun e =>
      let pv := e.1.2
      let cv := e.2.2
      if !pv && cv then some (e.1.1, "down")
      else if pv && !cv then some (e.1.1, "up")
      else none

/-- The static mode/toggle configuration read from `config` in
`PilotPublisherService.__init__` (pilot_service.py lines 87-112). -/
structure PilotConfig where
  depthHoldToggleButton : String
  maxGainMin : ℚ
  maxGainMax : ℚ
  maxGainStep : ℚ
deriving Repr

/-- Mutable state of `PilotPublisherService` used by `_run_loop`:
`self.seq`, `self._modes["depth_hold"]`, `self._max_gain` (mirrored into
`self._modes["max_gain"]` every tick), and `self._prev_buttons`. -/
structure PilotState where
  seq : ℕ
  depthHold : Bool
  maxGain : ℚ
  prevButtons : Option PilotButtons
deriving DecidableEq, Repr

/-- Round to two decimals, `round(new_val, 2)` (pilot_service.py line
151).  Python rounds half to even on floats; `_max_gain` always sits on
the 1% grid where the two agree, and no claim depends on the boundary. -/
def round2 (q : ℚ) : ℚ := (round (q * 100) : ℤ) / 100

/-- `PilotPublisherService._adjust_max_gain` (pilot_service.py lines
139-155): add the (possibly negative) step, clamp to
`[max_gain_min, max_gain_max]`, snap to the 1% grid.  A zero step is a
no-op. -/
def adjustMaxGain (cfg : PilotConfig) (g delta : ℚ) : ℚ :=
  if delta = 0 then g
  else round2 (max cfg.maxGainMin (min cfg.maxGainMax (g + delta)))

/-- `PilotPublisherService._build_frame` (pilot_service.py lines 242-267):
frame with the current `self.seq`, the tick timestamp and the snapshot's
axes, buttons and d-pad; `edges` and `modes` still at their dataclass
defaults. -/
def buildFrame (seq : ℕ) (t0 : ℚ) (snap : Snapshot) : PilotFrame :=
  { seq := (seq : ℤ)
    ts := t0
    axes := { lx := snap.lx, ly := snap.ly, rx := snap.rx, ry := snap.ry,
              lt := snap.lt, rt := snap.rt }
    buttons := { a := snap.a, b := snap.b, x := snap.x, y := snap.y,
                 lb := snap.lb, rb := snap.rb, win := snap.win,
                 menu := snap.menu, lstick := snap.lstick,
                 rstick := snap.rstick }
    dpad := snap.dpad }

/-- One successful iteration of the publish loop (pilot_service.py lines
309-358): build the frame from the snapshot, compute button edges against
the previous tick, toggle `depth_hold` on a toggle-button down edge,
adjust `max_gain` on y/a down edges, re-serialize `frame.modes` from the
authoritative local mode state (`frame.modes = dict(self._modes)`),
remember the buttons and bump `self.seq` — all *before* the non-blocking
send, so a dropped send changes no state. -/
def pilotTick (cfg : PilotConfig) (st : PilotState) (t0 : ℚ)
    (snap : Snapshot) : PilotState × PilotFrame :=
  let frame0 := buildFrame st.seq t0 snap
  let edges := computeEdges st.prevButtons frame0.buttons
  let dh :=
    if edges.lookup cfg.depthHoldToggleButton = some "down" then !st.depthHold
    else st.depthHold
  let g1 :=
    if edges.lookup "y" = some "down" then adjustMaxGain cfg st.maxGain cfg.maxGainStep
    else st.maxGain
  let g2 :=
    if edges.lookup "a" = some "down" then adjustMaxGain cfg g1 (-cfg.maxGainStep)
    else g1
  let frame :=
    { frame0 with
        edges := edges
        modes := [("depth_hold", ModeVal.b dh), ("max_gain", ModeVal.num g2)] }
  ({ seq := st.seq + 1, depthHold := dh, maxGain := g2,
     prevButtons := some frame.buttons }, frame)

/-- Run the publish loop over a schedule of (tick time, snapshot) pairs,
returning every frame built (whether or not its send is later dropped). -/
def pilotFrames (cfg : PilotConfig) : PilotState → List (ℚ × Snapshot) →
    List PilotFrame
  | _, [] => []
  | st, (t0, snap) :: rest =>
    let r := pilotTick cfg st t0 snap
    r.2 :: pilotFrames cfg r.1 rest

/-- The state after running the publish loop over a schedule. -/
def pilotEnd (cfg : PilotConfig) : PilotState → List (ℚ × Snapshot) →
    PilotState
  | st, [] => st
  | st, (t0, snap) :: rest => pilotEnd cfg (pilotTick cfg st t0 snap).1 rest

/-- Service state at construction (pilot_service.py lines 80 and 109-112):
`self.seq = 0`, modes at their configured defaults, no previous buttons. -/
def pilotInit (depthHoldDefault : Bool) (maxGainDefault : ℚ) : PilotState :=
  { seq := 0, depthHold := depthHoldDefault, maxGain := maxGainDefault,
    prevButtons := none }

/-- The frames a subscriber observes: `send_string(..., NOBLOCK)` drops a
frame when the outbound buffer is full (`zmq.Again`, pilot_service.py
lines 354-358); `drop.getD i false` says whether frame `i`'s send was
dropped. -/
def sentFrames (frames : List PilotFrame) (drop : List Bool) :
    List PilotFrame :=
  (frames.enum.filter fun fi => !(drop.getD fi.1 false)).map (·.2)

instance : Inhabited PilotAxes := ⟨{}⟩

instance : Inhabited PilotButtons := ⟨{}⟩

instance : Inhabited PilotFrame := ⟨{}⟩

/-! ## Theorems -/

/-- Claim C10: for every `PilotFrame` whose dpad is a 2-tuple of ints and
whose edges and modes are dictionaries, `from_dict(to_dict(f))` equals `f`
in every field, and the extra `"type": "pilot"` key `to_dict` adds to the
wire object is ignored by `from_dict`. -/
theorem C10_roundtrip (f : PilotFrame) (w : WireFrame) (t : String) :
    PilotFrame.fromDict (PilotFrame.toDict f) = f ∧
    PilotFrame.fromDict { w with typeTag := t } = PilotFrame.fromDict w := by
  constructor
  · simp [PilotFrame.toDict, PilotFrame.fromDict]
  · rfl

/-- Claim C9: with the controller deadzone configured to 0.1, a raw stick
sample `v` with `|v| < 0.1` is published as `0.0` and one with
`|v| ≥ 0.1` is published unchanged (no rescaling); the publisher's
`_build_frame` copies the snapshot's `lx` into `axes.lx` verbatim. -/
theorem C9_deadzone (iLy iRy : Bool) (rLt rRt : ℚ) (raw : RawSticks)
    (seq : ℕ) (t0 : ℚ) (snap : Snapshot) :
    (|raw.lx| < 1/10 →
      (GamepadSource.readOnceAxes (1/10) iLy iRy rLt rRt raw).1.lx = 0) ∧
    (1/10 ≤ |raw.lx| →
      (GamepadSource.readOnceAxes (1/10) iLy iRy rLt rRt raw).1.lx = raw.lx) ∧
    (buildFrame seq t0 snap).axes.lx = snap.lx := by
  refine ⟨fun h => ?_, fun h => ?_, rfl⟩
  · show GamepadSource.dzShape (1/10) raw.lx = 0
    unfold GamepadSource.dzShape
    exact if_pos h
  · show GamepadSource.dzShape (1/10) raw.lx = raw.lx
    unfold GamepadSource.dzShape
    exact if_neg (not_lt.mpr h)

/-- Witness for C9 at the spec's concrete inputs: a raw `0.05` publishes
as `0.0` and a raw `0.5` publishes as `0.5`. -/
theorem C9_deadzone_witness :
    (GamepadSource.readOnceAxes (1/10) false false 0 0
      { lx := 1/20, ly := 0, rx := 0, ry := 0, lt := 0, rt := 0,
        dpad := (0, 0) }).1.lx = 0 ∧
    (GamepadSource.readOnceAxes (1/10) false false 0 0
      { lx := 1/2, ly := 0, rx := 0, ry := 0, lt := 0, rt := 0,
        dpad := (0, 0) }).1.lx = 1/2 :=
  ⟨(C9_deadzone false false 0 0
      { lx := 1/20, ly := 0, rx := 0, ry := 0, lt := 0, rt := 0,
        dpad := (0, 0) } 0 0 {}).1 (by norm_num [abs]),
   (C9_deadzone false false 0 0
      { lx := 1/2, ly := 0, rx := 0, ry := 0, lt := 0, rt := 0,
        dpad := (0, 0) } 0 0 {}).2.1 (by norm_num [abs])⟩

/-- Counterexample to claim C2: with a heartbeat period estimate of 1.0 s,
the age sequence [0.4, 1.6, 0.95, 1.6, 0.95] yields the displayed states
[OK, WARN, OK, WARN, OK] — the status flips on every one of the five
calls, and *neither* of the two 0.95 s samples retains the prior WARN
state. -/
theorem C2_counterexample :
    linkStatusTrace (some 1) .noData [2/5, 8/5, 19/20, 8/5, 19/20]
      = [.ok, .warn, .ok, .warn, .ok] ∧
    ¬((linkStatusTrace (some 1) .noData
          [2/5, 8/5, 19/20, 8/5, 19/20]).getD 2 .noData
        = (linkStatusTrace (some 1) .noData
          [2/5, 8/5, 19/20, 8/5, 19/20]).getD 1 .noData ∨
      (linkStatusTrace (some 1) .noData
          [2/5, 8/5, 19/20, 8/5, 19/20]).getD 4 .noData
        = (linkStatusTrace (some 1) .noData
          [2/5, 8/5, 19/20, 8/5, 19/20]).getD 3 .noData) := by
  norm_num [linkStatusTrace, updateLinkStatus]
  decide

/-- Amended claim C2: with a heartbeat period estimate of 1.0 s the age
sequence [0.4, 1.6, 0.95, 1.6, 0.95] oscillates on every sample,
producing [OK, WARN, OK, WARN, OK]: recovery to a better state is
immediate once the age drops below `ok_th + margin = 1.55`, so a 0.95 s
sample never retains WARN.  The hysteresis only retains the *better*
state for ages inside the margin band: an age of 1.45 (which is WARN by
the nominal thresholds) keeps displaying OK when the previous state was
OK. -/
theorem C2_amended :
    linkStatusTrace (some 1) .noData [2/5, 8/5, 19/20, 8/5, 19/20]
      = [.ok, .warn, .ok, .warn, .ok] ∧
    updateLinkStatus (some 1) .ok (some (29/20)) = .ok ∧
    updateLinkStatus (some 1) .noData (some (29/20)) = .warn ∧
    updateLinkStatus (some 1) .warn (some (19/20)) = .ok := by
  norm_num [linkStatusTrace, updateLinkStatus]

/-- Counterexample to claim C3: `ROVStreams.__init__` sets neither
`RCVTIMEO` nor `SNDTIMEO` on the REQ socket, so a `_call` against a peer
that never replies blocks forever instead of surfacing a typed `Timeout`;
and an `ok: false` reply raises the untyped `RuntimeError` with the
socket left in place (generation unchanged), not discarded. -/
theorem C3_counterexample :
    rovStreamsRcvTimeoutMs = none ∧ rovStreamsSndTimeoutMs = none ∧
    rovCall 0 .silent = (.blocksForever, 0) ∧
    rovCall 5 (.reply { ok := false, error := some "boom", data := none })
      = (.runtimeError "ROV error: boom", 5) :=
  ⟨rfl, rfl, rfl, rfl⟩

/-- Amended claim C3: every RPC call made through `ROVStreams._call` uses
an *unbounded* blocking send and receive (no timeout options are ever
set); a peer that never replies blocks the call indefinitely; a reply
with `ok: false` raises a plain `RuntimeError` carrying the peer's
message ("ROV error: ..."); and on no path is the underlying REQ socket
discarded or recreated — its generation is returned unchanged. -/
theorem C3_amended (r : Reply) (g : ℕ) :
    rovCall g .silent = (.blocksForever, g) ∧
    rovCall g (.reply r)
      = ((if r.ok then .ok r.data else .runtimeError (rovErrorMsg r.error)), g) := by
  refine ⟨rfl, ?_⟩
  by_cases h : r.ok <;> simp [rovCall, h]

/-- Claim C1 exhibit (code bug): with `stale_reconnect_s = 3` and
`initial_reconnect_s = 5`, a subscriber that received one message at
t = 1 s and then nothing recreates the socket at the first stale poll
tick (t = 4.1 s) — and again at *every* subsequent empty poll tick
(t = 4.35 s, t = 4.6 s, only 0.25 s apart) while the silence continues,
because the stale branch never advances `last_rx` after a reset.  The
claim (and spec) say the socket is recreated exactly once per stale
interval. -/
theorem C1_stale_reset_every_tick :
    (sensorRun ⟨3, 5⟩ (sensorInit 0)
      [⟨1, [.msg (some 1) false]⟩, ⟨41/10, []⟩]).resets = 1 ∧
    (sensorRun ⟨3, 5⟩ (sensorInit 0)
      [⟨1, [.msg (some 1) false]⟩, ⟨41/10, []⟩, ⟨87/20, []⟩]).resets = 2 ∧
    (sensorRun ⟨3, 5⟩ (sensorInit 0)
      [⟨1, [.msg (some 1) false]⟩, ⟨41/10, []⟩, ⟨87/20, []⟩,
       ⟨23/5, []⟩]).resets = 3 := by
  norm_num [sensorRun, sensorStep, sensorDrain, sensorInit]

/-- Helper: the drain loop appends exactly the parseable messages of a
recv-error-free backlog to the dispatched list. -/
theorem sensorDrain_dispatched (now : ℚ) (s : SensorState)
    (evs : List RecvEvent) (h : ∀ e ∈ evs, e.isRecvErr = false) :
    (sensorDrain now s evs).dispatched
      = s.dispatched ++ evs.filterMap RecvEvent.parsedOf := by
  induction evs generalizing s with
  | nil => simp [sensorDrain]
  | cons e evs ih =>
    have he : e.isRecvErr = false := h e (List.mem_cons_self e evs)
    have hr : ∀ x ∈ evs, x.isRecvErr = false :=
      fun x hx => h x (List.mem_cons_of_mem e hx)
    match e with
    | .recvError => simp [RecvEvent.isRecvErr] at he
    | .msg none cb =>
      simpa [sensorDrain, RecvEvent.parsedOf] using ih _ hr
    | .msg (some m) cb =>
      simp only [sensorDrain, RecvEvent.parsedOf, List.filterMap_cons]
      rw [ih _ hr]
      simp

/-- Helper: one loop iteration with no socket-level receive error
dispatches exactly the tick's parseable messages (an empty poll changes
only the staleness bookkeeping). -/
theorem sensorStep_dispatched (cfg : SensorConfig) (s : SensorState)
    (t : PollTick) (h : ∀ e ∈ t.batch, e.isRecvErr = false) :
    (sensorStep cfg s t).dispatched
      = s.dispatched ++ t.batch.filterMap RecvEvent.parsedOf := by
  obtain ⟨now, batch⟩ := t
  cases batch with
  | nil =>
    show (sensorStep cfg s ⟨now, []⟩).dispatched = _
    simp only [sensorStep, List.filterMap_nil, List.append_nil]
    split <;> split <;> rfl
  | cons e evs =>
    show (sensorDrain now s (e :: evs)).dispatched = _
    exact sensorDrain_dispatched now s (e :: evs) h

/-- Claim C8: the telemetry receive loop never dies on a malformed
message or a raising `on_message` callback: over any finite schedule of
poll ticks containing no socket-level receive error, the loop processes
*every* tick (it exits only when the stop event ends the schedule) and
hands exactly the parseable messages to the callback, in order — a
message that fails `json.loads`, or whose callback raises, costs only
that one message. -/
theorem C8_loop_survives (cfg : SensorConfig) (s : SensorState)
    (ticks : List PollTick)
    (h : ∀ t ∈ ticks, ∀ e ∈ t.batch, e.isRecvErr = false) :
    (sensorRun cfg s ticks).dispatched
      = s.dispatched
        ++ ticks.flatMap (fun t => t.batch.filterMap RecvEvent.parsedOf) := by
  induction ticks generalizing s with
  | nil => simp [sensorRun]
  | cons t rest ih =>
    have hstep := sensorStep_dispatched cfg s t (h t (List.mem_cons_self t rest))
    have hrest : ∀ t' ∈ rest, ∀ e ∈ t'.batch, e.isRecvErr = false :=
      fun t' ht' => h t' (List.mem_cons_of_mem t ht')
    calc (sensorRun cfg s (t :: rest)).dispatched
        = (sensorRun cfg (sensorStep cfg s t) rest).dispatched := rfl
      _ = (sensorStep cfg s t).dispatched
            ++ rest.flatMap (fun t => t.batch.filterMap RecvEvent.parsedOf) :=
          ih _ hrest
      _ = _ := by rw [hstep]; simp [List.flatMap_cons, List.append_assoc]

/-- Witness for C8 on a concrete schedule: a malformed message at t = 1,
then a batch of [callback-raising message 7, malformed message, healthy
message 8] — the loop survives the whole schedule and dispatches exactly
[7, 8]. -/
theorem C8_loop_survives_witness :
    (sensorRun ⟨3, 5⟩ (sensorInit 0)
      [⟨1, [.msg none false]⟩,
       ⟨3/2, [.msg (some 7) true, .msg none false, .msg (some 8) false]⟩]).dispatched
      = [7, 8] := by
  rw [C8_loop_survives ⟨3, 5⟩ (sensorInit 0) _ (by decide)]
  rfl

/-- Claim C4: for a raw-mode `ReceiverProcess` whose buffer state
satisfies the reader/consumer invariant `last_delivered_seq ≤ latest_seq`
(true of the initial state and preserved by both operations): (a) if
`read_frame()` returns a non-None frame and the reader stores no new
frame before the next call, that next call returns `None`; and (b) after
the reader stores exactly one new frame, exactly one subsequent
`read_frame()` call returns non-None — a frame is delivered at most
once. -/
theorem C4_freshness_gate (order : String) (s : RxState) (f : List Pixel)
    (now : ℚ) (hinv : s.lastDeliveredSeq ≤ s.latestSeq) :
    (∀ fr s₁, readFrame order s = (some fr, s₁) →
      (readFrame order s₁).1 = none) ∧
    ((readFrame order (rawReaderStore now f s)).1.isSome ∧
      (readFrame order (readFrame order (rawReaderStore now f s)).2).1
        = none) := by
  refine ⟨?_, ?_⟩
  · intro fr s₁ hread
    match hlf : s.latestFrame with
    | none => simp [readFrame, hlf] at hread
    | some frame =>
      by_cases heq : s.latestSeq = s.lastDeliveredSeq
      · simp [readFrame, hlf, heq] at hread
      · simp [readFrame, hlf, heq] at hread
        obtain ⟨h1, h2⟩ := hread
        subst h2
        simp [readFrame]
  · have hne : ¬(s.latestSeq + 1 = s.lastDeliveredSeq) := by omega
    constructor
    · simp [readFrame, rawReaderStore, hne]
    · simp [readFrame, rawReaderStore, hne]

/-- Witness for C4 at a concrete state: from the fresh receiver state,
storing one frame makes exactly the next `read_frame` return a frame and
the one after return `None`. -/
theorem C4_freshness_gate_witness :
    (readFrame "BGR" (rawReaderStore 1 [(1, 2, 3)] rxInit)).1.isSome ∧
    (readFrame "BGR"
      (readFrame "BGR" (rawReaderStore 1 [(1, 2, 3)] rxInit)).2).1 = none :=
  (C4_freshness_gate "BGR" rxInit [(1, 2, 3)] 1 (Nat.le_refl 0)).2

/-- Claim C7: `start_stream` against a peer that reports "already exists"
on the first attempt issues an explicit `stop_stream` for the name and
retries `start_stream` exactly once, and the caller obtains the
successful retry result; a remote error that does not mention "already
exists" is raised to the caller unchanged on the first attempt, with no
stop and no retry. -/
theorem C7_idempotent_start (n : String) (peer : ℕ → Reply) (e : String)
    (h0 : peer 0 = { ok := false, error := some e, data := none })
    (hae : mentionsAlreadyExists (rovErrorMsg (some e)) = true)
    (hstop : (peer 1).ok = true) (hretry : (peer 2).ok = true) :
    startStream (some n) peer
      = ([.startReq, .stopReq n, .startReq], .ok ((peer 2).data)) ∧
    (∀ (e' : String) (peer' : ℕ → Reply),
      mentionsAlreadyExists (rovErrorMsg (some e')) = false →
      peer' 0 = { ok := false, error := some e', data := none } →
      startStream (some n) peer'
        = ([.startReq], .runtimeError (rovErrorMsg (some e')))) := by
  constructor
  · rw [startStream, h0]
    simp [rovCall, hae, hstop, hretry]
  · intro e' peer' hae' h0'
    rw [startStream, h0']
    simp [rovCall, hae']

/-- Witness for C7: against a peer whose first reply is the
"already exists" error and which accepts everything afterwards, the
caller sees the request sequence start/stop/start and a successful
result; against a peer failing with "no such device", the error surfaces
unchanged after the single start request. -/
theorem C7_idempotent_start_witness :
    startStream (some "cam0")
      (fun i => if i = 0
        then { ok := false, error := some "stream already exists", data := none }
        else { ok := true, error := none, data := some "started" })
      = ([.startReq, .stopReq "cam0", .startReq], .ok (some "started")) ∧
    startStream (some "cam0")
      (fun i => if i = 0
        then { ok := false, error := some "no such device", data := none }
        else { ok := true, error := none, data := some "started" })
      = ([.startReq], .runtimeError "ROV error: no such device") := by
  have h := C7_idempotent_start "cam0"
    (fun i => if i = 0
      then { ok := false, error := some "stream already exists", data := none }
      else { ok := true, error := none, data := some "started" })
    "stream already exists" (by simp) (by decide) (by simp) (by simp)
  exact ⟨h.1, h.2 "no such device" _ (by decide) (by simp)⟩

/-- Helper: the frame a tick builds carries the tick's new depth-hold
state in `modes["depth_hold"]`. -/
theorem pilotTick_frame_dh (cfg : PilotConfig) (st : PilotState) (t0 : ℚ)
    (snap : Snapshot) :
    (pilotTick cfg st t0 snap).2.modes.lookup "depth_hold"
      = some (.b (pilotTick cfg st t0 snap).1.depthHold) := by
  simp [pilotTick, List.lookup]

/-- Helper: a tick whose frame records no depth-hold toggle down-edge
leaves the depth-hold state unchanged. -/
theorem pilotTick_dh_of_quiet (cfg : PilotConfig) (st : PilotState)
    (t0 : ℚ) (snap : Snapshot)
    (h : (pilotTick cfg st t0 snap).2.edges.lookup cfg.depthHoldToggleButton
      ≠ some "down") :
    (pilotTick cfg st t0 snap).1.depthHold = st.depthHold := by
  simp only [pilotTick] at h ⊢
  rw [if_neg h]

/-- Helper: the frame list of a run decomposes one tick at a time. -/
theorem pilotFrames_cons (cfg : PilotConfig) (st : PilotState) (t0 : ℚ)
    (snap : Snapshot) (rest : List (ℚ × Snapshot)) :
    pilotFrames cfg st ((t0, snap) :: rest)
      = (pilotTick cfg st t0 snap).2
        :: pilotFrames cfg (pilotTick cfg st t0 snap).1 rest := rfl

/-- Helper: from a state with depth-hold engaged, every frame up to `M`
still carries `modes["depth_hold"] = true` as long as no frame up to `M`
records a toggle down-edge. -/
theorem pilot_dh_persists (cfg : PilotConfig) (inputs : List (ℚ × Snapshot)) :
    ∀ (st : PilotState) (M : ℕ), M < inputs.length → st.depthHold = true →
    (∀ k, k ≤ M →
      ((pilotFrames cfg st inputs).getD k default).edges.lookup
        cfg.depthHoldToggleButton ≠ some "down") →
    ((pilotFrames cfg st inputs).getD M default).modes.lookup "depth_hold"
      = some (.b true) := by
  induction inputs with
  | nil => intro st M hM; simp at hM
  | cons x rest ih =>
    intro st M hM hdh hquiet
    obtain ⟨t0, snap⟩ := x
    have hq0 := hquiet 0 (Nat.zero_le M)
    rw [pilotFrames_cons] at hq0
    simp only [List.getD_cons_zero] at hq0
    have hdh1 : (pilotTick cfg st t0 snap).1.depthHold = true := by
      rw [pilotTick_dh_of_quiet cfg st t0 snap hq0, hdh]
    match M with
    | 0 =>
      rw [pilotFrames_cons]
      simp only [List.getD_cons_zero]
      rw [pilotTick_frame_dh, hdh1]
    | M' + 1 =>
      rw [pilotFrames_cons]
      simp only [List.getD_cons_succ]
      refine ih _ M' ?_ hdh1 ?_
      · simpa using Nat.lt_of_succ_lt_succ hM
      · intro k hk
        have := hquiet (k + 1) (by omega)
        rw [pilotFrames_cons] at this
        simpa only [List.getD_cons_succ] using this

/-- Helper: depth-hold durability between two frame indices, generalized
over the starting state. -/
theorem pilot_dh_between (cfg : PilotConfig) (inputs : List (ℚ × Snapshot)) :
    ∀ (st : PilotState) (N M : ℕ), N < M → M < inputs.length →
    (∀ k, N < k → k ≤ M →
      ((pilotFrames cfg st inputs).getD k default).edges.lookup
        cfg.depthHoldToggleButton ≠ some "down") →
    ((pilotFrames cfg st inputs).getD N default).modes.lookup "depth_hold"
      = some (.b true) →
    ((pilotFrames cfg st inputs).getD M default).modes.lookup "depth_hold"
      = some (.b true) := by
  induction inputs with
  | nil => intro st N M hNM hM; simp at hM
  | cons x rest ih =>
    intro st N M hNM hM hquiet hN
    obtain ⟨t0, snap⟩ := x
    match N with
    | 0 =>
      have hdh1 : (pilotTick cfg st t0 snap).1.depthHold = true := by
        rw [pilotFrames_cons] at hN
        simp only [List.getD_cons_zero] at hN
        rw [pilotTick_frame_dh] at hN
        have := Option.some.inj hN
        cases hb : (pilotTick cfg st t0 snap).1.depthHold
        · rw [hb] at this; cases this
        · rfl
      match M, hNM with
      | M' + 1, _ =>
        rw [pilotFrames_cons]
        simp only [List.getD_cons_succ]
        refine pilot_dh_persists cfg rest _ M' ?_ hdh1 ?_
        · simpa using Nat.lt_of_succ_lt_succ hM
        · intro k hk
          have := hquiet (k + 1) (by omega) (by omega)
          rw [pilotFrames_cons] at this
          simpa only [List.getD_cons_succ] using this
    | N' + 1 =>
      match M, hNM with
      | M' + 1, _ =>
        rw [pilotFrames_cons] at hN ⊢
        simp only [List.getD_cons_succ] at hN ⊢
        refine ih _ N' M' (by omega) ?_ ?_ hN
        · simpa using Nat.lt_of_succ_lt_succ hM
        · intro k hk1 hk2
          have := hquiet (k + 1) (by omega) (by omega)
          rw [pilotFrames_cons] at this
          simpa only [List.getD_cons_succ] using this

/-- Claim C5: for every pair of frames built by the publisher run with
indices N < M such that no depth-hold toggle down-edge is recorded by any
tick in (N, M]: if frame N carries `modes["depth_hold"] = true` then
frame M does too.  The modes map is re-serialized from the authoritative
local state on every tick *before* the non-blocking send, so whether any
intermediate frame is dropped in transit cannot affect it. -/
theorem C5_modes_are_state (cfg : PilotConfig) (dhd : Bool) (mg : ℚ)
    (inputs : List (ℚ × Snapshot)) (N M : ℕ) (hNM : N < M)
    (hM : M < inputs.length)
    (hquiet : ∀ k, N < k → k ≤ M →
      ((pilotFrames cfg (pilotInit dhd mg) inputs).getD k default).edges.lookup
        cfg.depthHoldToggleButton ≠ some "down")
    (hN : ((pilotFrames cfg (pilotInit dhd mg) inputs).getD N
        default).modes.lookup "depth_hold" = some (.b true)) :
    ((pilotFrames cfg (pilotInit dhd mg) inputs).getD M
        default).modes.lookup "depth_hold" = some (.b true) :=
  pilot_dh_between cfg inputs (pilotInit dhd mg) N M hNM hM hquiet hN

/-- Witness for C5 on a concrete run: depth-hold engaged by default, three
ticks with no buttons pressed — frame 0 carries `depth_hold = true` and so
does frame 2. -/
theorem C5_modes_are_state_witness :
    ((pilotFrames ⟨"rstick", 0, 1, 0⟩ (pilotInit true 1)
        [(0, {}), (1, {}), (2, {})]).getD 2 default).modes.lookup "depth_hold"
      = some (.b true) :=
  C5_modes_are_state ⟨"rstick", 0, 1, 0⟩ true 1 [(0, {}), (1, {}), (2, {})]
    0 2 (by omega) (by simp)
    (fun k hk1 hk2 => by interval_cases k <;> decide) (by decide)

/-- Helper: every frame built from state `st` carries a sequence number
at least `st.seq`. -/
theorem pilotFrames_seq_lowerBound (cfg : PilotConfig)
    (inputs : List (ℚ × Snapshot)) :
    ∀ st : PilotState, ∀ f ∈ pilotFrames cfg st inputs,
      (st.seq : ℤ) ≤ f.seq := by
  induction inputs with
  | nil => intro st f hf; simp [pilotFrames] at hf
  | cons x rest ih =>
    intro st f hf
    obtain ⟨t0, snap⟩ := x
    rw [pilotFrames_cons] at hf
    rcases List.mem_cons.mp hf with h | h
    · subst h
      exact le_refl _
    · have hb := ih (pilotTick cfg st t0 snap).1 f h
      have hst : (pilotTick cfg st t0 snap).1.seq = st.seq + 1 := rfl
      rw [hst] at hb
      push_cast at hb ⊢
      omega

/-- Helper: the sequence numbers of the frames a run builds are strictly
increasing. -/
theorem pilotFrames_seq_pairwise (cfg : PilotConfig)
    (inputs : List (ℚ × Snapshot)) :
    ∀ st : PilotState,
      ((pilotFrames cfg st inputs).map (·.seq)).Pairwise (· < ·) := by
  induction inputs with
  | nil => intro st; simp [pilotFrames]
  | cons x rest ih =>
    intro st
    obtain ⟨t0, snap⟩ := x
    rw [pilotFrames_cons, List.map_cons]
    refine List.Pairwise.cons ?_ (ih _)
    intro y hy
    rcases List.mem_map.mp hy with ⟨f, hf, rfl⟩
    have hb := pilotFrames_seq_lowerBound cfg rest (pilotTick cfg st t0 snap).1 f hf
    have hst : (pilotTick cfg st t0 snap).1.seq = st.seq + 1 := rfl
    rw [hst] at hb
    have hhead : (pilotTick cfg st t0 snap).2.seq = (st.seq : ℤ) := rfl
    rw [hhead]
    push_cast at hb ⊢
    omega

/-- Claim C6: in any single run without restart, the `seq` fields of the
frames the publisher sends are strictly increasing with no repeats —
frames dropped because the outbound buffer was full (any drop schedule)
leave gaps, never duplicates or decreases. -/
theorem C6_seq_strictly_increasing (cfg : PilotConfig) (dhd : Bool) (mg : ℚ)
    (inputs : List (ℚ × Snapshot)) (drop : List Bool) :
    ((sentFrames (pilotFrames cfg (pilotInit dhd mg) inputs) drop).map
        (·.seq)).Pairwise (· < ·) := by
  have h1 : List.Sublist
      (((pilotFrames cfg (pilotInit dhd mg) inputs).enum.filter
        (fun fi => !(drop.getD fi.1 false))).map Prod.snd)
      ((pilotFrames cfg (pilotInit dhd mg) inputs).enum.map Prod.snd) :=
    List.Sublist.map Prod.snd (List.filter_sublist _)
  rw [List.enum_map_snd] at h1
  have hsub : List.Sublist
      (sentFrames (pilotFrames cfg (pilotInit dhd mg) inputs) drop)
      (pilotFrames cfg (pilotInit dhd mg) inputs) := h1
  have hall := pilotFrames_seq_pairwise cfg inputs (pilotInit dhd mg)
  exact hall.sublist (hsub.map (·.seq))

end TritonPilot
